import Mathlib

/-!
# Scriptify — verification of the ingestion-and-summarization client

Shallow embedding of the Scriptify frontend conversion flow
(`handleConvert` in the enhanced `App.jsx`) and of the URL Validator
component described in the specification.  The client flow is modelled as a
pure state-transition function over an `AppState` record mirroring the React
state hooks; the asynchronous backend call and the `Math.random()` draws of
the simulated-progress interval are passed in explicitly as a `FetchOutcome`
oracle and a list of rational draws.
-/

namespace Scriptify

/-- Character-list prefix test (`p` is a prefix of the second list). -/
def startsWithList : List Char → List Char → Bool
  | [], _ => true
  | _ :: _, [] => false
  | p :: ps, c :: cs => p == c && startsWithList ps cs

/-- Substring containment on character lists: JavaScript `String.includes`. -/
def containsSub (pat : List Char) : List Char → Bool
  | [] => startsWithList pat []
  | c :: cs => startsWithList pat (c :: cs) || containsSub pat cs

/-- Frontend URL validation predicate
`url.includes('youtube.com') || url.includes('youtu.be')` of `handleConvert` (App.jsx line 55; its negation
guards the early-return branch). -/
def isYouTubeUrl (u : String) : Bool :=
  containsSub "youtube.com".toList u.toList || containsSub "youtu.be".toList u.toList

/-- The four values of the `summaryType` select element (App.jsx
lines 237–240), with `comprehensive` the initial state. -/
inductive SummaryType
  | comprehensive
  | brief
  | bullets
  | academic
deriving DecidableEq, Repr

/-- The string value carried by each select option. -/
def summaryTypeStr : SummaryType → String
  | .comprehensive => "comprehensive"
  | .brief => "brief"
  | .bullets => "bullets"
  | .academic => "academic"

/-- JSON scalar values appearing in the request body. -/
inductive JsonVal
  | str (s : String)
  | bool (b : Bool)
deriving DecidableEq, Repr

/-- The JSON request body built by `JSON.stringify` in `handleConvert`
(App.jsx lines 101–107), as an ordered field list. -/
def mkRequestBody (url : String) (st : SummaryType) : List (String × JsonVal) :=
  [("url", .str url),
   ("summary_type", .str (summaryTypeStr st)),
   ("include_timestamps", .bool true),
   ("include_chapters", .bool false),
   ("include_highlights", .bool true)]

/-- The `video_info` object of a terminal success payload
(spec §6 outbound contract; consumed at App.jsx lines 334–345). -/
structure VideoInfo where
  title : String
  uploader : String
  duration : Nat
  view_count : Nat
  upload_date : String
deriving DecidableEq, Repr

/-- A timestamped entry of the optional `highlights` / `timestamps` lists of
the success payload (spec §6). -/
structure StampedText where
  timestamp : ℚ
  text : String
deriving DecidableEq, Repr

/-- Terminal success payload: `{text, video_info, highlights?, timestamps?}`
(spec §6; the client reads `data.text` and `data.video_info`). -/
structure ResponseData where
  text : String
  video_info : VideoInfo
  highlights : Option (List StampedText)
  timestamps : Option (List StampedText)
deriving DecidableEq, Repr

/-- Outcome of the `fetch('/transcribe-summary/')` call, as observed by the
client: the promise rejects, the response is not ok, the JSON body carries an
`error` field, or a success payload arrives. -/
inductive FetchOutcome
  | networkReject (msg : String)
  | httpError (status : Nat) (body : String)
  | bodyError (msg : String)
  | success (d : ResponseData)
deriving DecidableEq, Repr

/-- The React state hooks of the `App` component (App.jsx lines 32–41). -/
structure AppState where
  url : String
  transcript : String
  isLoading : Bool
  isSidebarOpen : Bool
  error : String
  copySuccess : Bool
  progress : ℚ
  progressMessage : String
  summaryType : SummaryType
  videoInfo : Option VideoInfo
deriving DecidableEq, Repr

/-- Initial hook values (App.jsx lines 32–41). -/
def initialState : AppState :=
  { url := "", transcript := "", isLoading := false, isSidebarOpen := false,
    error := "", copySuccess := false, progress := 0, progressMessage := "",
    summaryType := .comprehensive, videoInfo := none }

/-- Progress message chosen from the uncapped candidate percentage inside an
interval tick (App.jsx lines 76–88). -/
def tickMessage (p : ℚ) : String :=
  if p < 15 then "Initializing audio processing..."
  else if p < 30 then "Extracting high-quality audio..."
  else if p < 45 then "Analyzing speech patterns..."
  else if p < 60 then "Transcribing audio content..."
  else if p < 75 then "Detecting chapters and highlights..."
  else "Generating intelligent summary..."

/-- One simulated-progress interval tick (App.jsx lines 72–93): if the
previous value is below 90, add `Math.random() * 15` (the draw `r` is the
`Math.random()` output) and cap at 90; otherwise leave it unchanged. -/
def tick (prev : ℚ) (r : ℚ) : ℚ :=
  if prev < 90 then min (prev + r * 15) 90 else prev

/-- The interval tick as a state update (progress and progress message). -/
def tickState (s : AppState) (r : ℚ) : AppState :=
  if s.progress < 90 then
    { s with progress := min (s.progress + r * 15) 90,
             progressMessage := tickMessage (s.progress + r * 15) }
  else s

/-- State updates performed before the `try` block (App.jsx lines 60–65). -/
def startState (s : AppState) : AppState :=
  { s with isLoading := true, isSidebarOpen := true, error := "",
           copySuccess := false, progress := 0,
           progressMessage := "Initializing..." }

/-- Fallback of `error.message || 'Failed to convert video. Please try again.'`
(App.jsx line 140). -/
def errMsgOr (m : String) : String :=
  if m = "" then "Failed to convert video. Please try again." else m

/-- The `catch` branch (App.jsx lines 138–142): record the error message,
reset progress to 0 and clear the progress message. -/
def catchBranch (s : AppState) (msg : String) : AppState :=
  { s with error := errMsgOr msg, progress := 0, progressMessage := "" }

/-- Message of the error thrown on a non-ok response (App.jsx line 117). -/
def httpErrorMessage (status : Nat) : String :=
  "HTTP error! Status: " ++ toString status

/-- Processing of the settled fetch: on arrival of any response the interval
is cleared and progress jumps to 95 (App.jsx lines 110–112); a non-ok status
or a body `error` field throws into the catch branch; success stores the
payload (lines 114–130).  A rejected fetch reaches the catch branch without
the 95 update. -/
def applyResponse (s : AppState) (out : FetchOutcome) : AppState :=
  match out with
  | .networkReject msg => catchBranch s msg
  | .httpError status _ =>
      catchBranch
        { s with progress := 95, progressMessage := "Finalizing summary..." }
        (httpErrorMessage status)
  | .bodyError msg =>
      catchBranch
        { s with progress := 95, progressMessage := "Finalizing summary..." }
        msg
  | .success d =>
      { s with progress := 100, progressMessage := "Complete!",
               transcript := d.text, videoInfo := some d.video_info,
               error := "" }

/-- One whole `handleConvert` run (App.jsx lines 53–146): the early-return
validation branch, else start, the interval ticks that fire before the fetch
settles (their `Math.random()` draws are `rs`), the response, and the
`finally` clearing of the loading flag.  Returns the final state and the
request body sent (`none` when validation rejects the URL and no network
request is made). -/
def handleConvert (s : AppState) (rs : List ℚ) (out : FetchOutcome) :
    AppState × Option (List (String × JsonVal)) :=
  if isYouTubeUrl s.url then
    let s3 := applyResponse (rs.foldl tickState (startState s)) out
    ({ s3 with isLoading := false }, some (mkRequestBody s.url s.summaryType))
  else
    ({ s with error := "Please enter a valid YouTube URL" }, none)

/-- The summary text rendered in the sidebar (App.jsx line 373). -/
def displayedSummary (s : AppState) : String := s.transcript

/-- The video information block rendered in the sidebar
(App.jsx lines 334–345). -/
def displayedVideoInfo (s : AppState) : Option VideoInfo := s.videoInfo

/-- Successive values of the `progress` state variable produced by the
interval, starting from `p`, one entry per state (mirrors the
`setProgress(prev => ...)` updater chain of App.jsx lines 72–93). -/
def tickTrace (p : ℚ) : List ℚ → List ℚ
  | [] => [p]
  | r :: rs => p :: tickTrace (tick p r) rs

/-- Progress values written after the fetch settles, in program order:
95 then 100 on success (App.jsx lines 111, 126); 95 then the catch reset to
0 on an http or body error (lines 111, 141); only the catch reset when the
fetch rejects. -/
def postResponseTrace (out : FetchOutcome) : List ℚ :=
  match out with
  | .networkReject _ => [0]
  | .httpError _ _ => [95, 0]
  | .bodyError _ => [95, 0]
  | .success _ => [95, 100]

/-- All values taken by `progress` during a run that passes validation. -/
def fullRunTrace (rs : List ℚ) (out : FetchOutcome) : List ℚ :=
  tickTrace 0 rs ++ postResponseTrace out

/-- Progress values observed from submission until the terminal result is
recorded.  The terminal result is recorded by `setError` in the catch branch
(App.jsx line 140, before the reset of progress to 0 on line 141) and by
`setTranscript` on success (line 128, after `setProgress(100)` on line 126):
so on failure the trace ends with the last pre-catch value, and on success
it ends with 100. -/
def traceUntilTerminal (rs : List ℚ) (out : FetchOutcome) : List ℚ :=
  tickTrace 0 rs ++
    match out with
    | .networkReject _ => []
    | .httpError _ _ => [95]
    | .bodyError _ => [95]
    | .success _ => [95, 100]

/-! ## URL Validator (spec §4.1)

The backend URL Validator component (identifier extraction) is not part of
the frontend sources; only its caller-side check appears in `handleConvert`.
It is therefore modelled from the specification. -/

/-- Characters admitted in a canonical video identifier (the spec's
"canonical video identifier (fixed-format string)"). -/
def isIdChar (c : Char) : Bool := c.isAlphanum || c == '_'

/-- A canonical identifier: non-empty, made of identifier characters only. -/
def isCanonicalId (s : String) : Bool :=
  !s.toList.isEmpty && s.toList.all isIdChar

/-- The suffix following the first occurrence of `pat`, if any. -/
def afterFirst (pat : List Char) : List Char → Option (List Char)
  | [] => none
  | c :: cs =>
      if startsWithList pat (c :: cs) then some ((c :: cs).drop pat.length)
      else afterFirst pat cs

/-- The validator's error taxonomy entry for client input (spec §7). -/
inductive UrlError
  | invalidURL
deriving DecidableEq, Repr

instance {ε α : Type} [DecidableEq ε] [DecidableEq α] :
    DecidableEq (Except ε α) := fun x y =>
  match x, y with
  | .ok a, .ok b =>
      if h : a = b then .isTrue (by rw [h]) else .isFalse (by simp [h])
  | .error a, .error b =>
      if h : a = b then .isTrue (by rw [h]) else .isFalse (by simp [h])
  | .ok _, .error _ => .isFalse (by simp)
  | .error _, .ok _ => .isFalse (by simp)

/-- Extraction of the leading identifier characters after a matched host
pattern; fails when no identifier character follows ("the identifier cannot
be extracted", spec §4.1). -/
def idFrom (rest : List Char) : Except UrlError String :=
  if (rest.takeWhile isIdChar).isEmpty then .error .invalidURL
  else .ok (String.mk (rest.takeWhile isIdChar))

/-- Modelled from the spec: the URL Validator component (spec §4.1, §8),
absent from the frontend sources.  It accepts a raw string and returns the
canonical video identifier: an already-canonical identifier is returned
unchanged (spec §8 idempotence); a URL of either of the two accepted host
families (`youtu.be/<id>`, `youtube.com/watch?v=<id>`) yields the identifier
that follows the host pattern; it fails with `InvalidURL` when the pattern
does not match or the identifier cannot be extracted. -/
def validateUrl (s : String) : Except UrlError String :=
  if isCanonicalId s then .ok s
  else
    match afterFirst "youtu.be/".toList s.toList with
    | some rest => idFrom rest
    | none =>
        match afterFirst "youtube.com/watch?v=".toList s.toList with
        | some rest => idFrom rest
        | none => .error .invalidURL

/-- Whether the fetch outcome ends the job in an error. -/
def outcomeFails : FetchOutcome → Bool
  | .success _ => false
  | _ => true

/-- A sample success payload. -/
def demoData : ResponseData :=
  { text := "Hello world summary.",
    video_info := { title := "Demo", uploader := "Ayush", duration := 63,
                    view_count := 120, upload_date := "2024-01-01" },
    highlights := some [{ timestamp := 0, text := "intro" }],
    timestamps := none }

/-- A state holding a URL that passes the frontend validation. -/
def demoValidState : AppState :=
  { initialState with url := "https://youtu.be/abc123" }

/-! ## Helper lemmas -/

lemma errMsgOr_ne (m : String) : errMsgOr m ≠ "" := by
  unfold errMsgOr
  split
  · decide
  · assumption

lemma isCanonicalId_mk (l : List Char) (h : l.isEmpty = false)
    (h2 : l.all isIdChar = true) : isCanonicalId (String.mk l) = true := by
  unfold isCanonicalId
  show (!l.isEmpty && l.all isIdChar) = true
  rw [h, h2]
  rfl

lemma all_takeWhile_self (p : α → Bool) :
    ∀ l : List α, (l.takeWhile p).all p = true
  | [] => rfl
  | a :: l => by
      rw [List.takeWhile_cons]
      split
      · next h =>
          simp only [List.all_cons, h, Bool.true_and]
          exact all_takeWhile_self p l
      · rfl

lemma idFrom_ok (rest : List Char) (id : String) (h : idFrom rest = .ok id) :
    isCanonicalId id = true := by
  unfold idFrom at h
  split at h
  · cases h
  · cases h
    next hne =>
      exact isCanonicalId_mk _ (Bool.eq_false_iff.mpr hne)
        (all_takeWhile_self _ _)

lemma validateUrl_ok_canonical (s id : String)
    (h : validateUrl s = .ok id) : isCanonicalId id = true := by
  unfold validateUrl at h
  split at h
  · cases h
    next hc => exact hc
  · split at h
    · exact idFrom_ok _ _ h
    · split at h
      · exact idFrom_ok _ _ h
      · cases h

lemma tick_le_90 {p : ℚ} (hp : p ≤ 90) (r : ℚ) : tick p r ≤ 90 := by
  unfold tick
  split
  · exact min_le_right _ _
  · exact hp

lemma le_tick {p r : ℚ} (hr : 0 ≤ r) : p ≤ tick p r := by
  unfold tick
  split
  · next h =>
      exact le_min (le_add_of_nonneg_right (mul_nonneg hr (by norm_num))) h.le
  · exact le_refl p

lemma tickTrace_mem_le : ∀ (rs : List ℚ) (p : ℚ), p ≤ 90 →
    ∀ q ∈ tickTrace p rs, q ≤ 90
  | [], p, hp, q, hq => by
      simp only [tickTrace, List.mem_singleton] at hq
      exact hq ▸ hp
  | r :: rs, p, hp, q, hq => by
      simp only [tickTrace, List.mem_cons] at hq
      rcases hq with rfl | hq
      · exact hp
      · exact tickTrace_mem_le rs (tick p r) (tick_le_90 hp r) q hq

lemma tickTrace_append_head (p : ℚ) (rs : List ℚ) (suf : List ℚ) :
    (tickTrace p rs ++ suf).head? = some p := by
  cases rs <;> rfl

lemma chain_tickTrace_append : ∀ (rs : List ℚ) (p : ℚ), p ≤ 90 →
    (∀ r ∈ rs, 0 ≤ r) → ∀ suf : List ℚ, List.Chain' (· ≤ ·) suf →
    (∀ y ∈ suf.head?, (90 : ℚ) ≤ y) →
    List.Chain' (· ≤ ·) (tickTrace p rs ++ suf)
  | [], p, hp, _, suf, hsuf, hhead => by
      simp only [tickTrace, List.singleton_append]
      exact List.chain'_cons'.mpr ⟨fun y hy => le_trans hp (hhead y hy), hsuf⟩
  | r :: rs, p, hp, hr, suf, hsuf, hhead => by
      simp only [tickTrace, List.cons_append]
      refine List.chain'_cons'.mpr ⟨?_, ?_⟩
      · intro y hy
        rw [tickTrace_append_head] at hy
        simp only [Option.mem_def, Option.some.injEq] at hy
        exact hy ▸ le_tick (hr r (List.mem_cons_self r rs))
      · exact chain_tickTrace_append rs (tick p r) (tick_le_90 hp r)
          (fun x hx => hr x (List.mem_cons_of_mem r hx)) suf hsuf hhead

/-- The progress component of the state-level tick agrees with the
trace-level `tick`. -/
lemma tickState_progress (s : AppState) (r : ℚ) :
    (tickState s r).progress = tick s.progress r := by
  unfold tickState tick
  split <;> rfl

/-! ## Claim theorems -/

/-- C1 counterexample: a job submitted with a valid URL whose response body
carries an error field.  The progress values taken during the run are
`[0, 95, 0]` — the last-known percentage before the error was 95, yet the
final state shows the error message with progress reset to 0, so the
percentage does not remain at its last-known value. -/
theorem c1_counterexample :
    fullRunTrace [] (FetchOutcome.bodyError "boom") = [0, 95, 0] ∧
    (handleConvert demoValidState [] (FetchOutcome.bodyError "boom")).1.error
      = "boom" ∧
    (handleConvert demoValidState [] (FetchOutcome.bodyError "boom")).1.progress
      = 0 := by
  refine ⟨by decide, by decide, by decide⟩

/-- C1 (amended): for every job that ends in an error (rejected fetch,
failed HTTP response, or an error field in the response body), the client is
shown a single non-empty error message and the progress percentage is reset
to 0 with the progress message cleared — it does not remain at its
last-known value. -/
theorem c1_error_resets_progress (s : AppState) (rs : List ℚ)
    (out : FetchOutcome) (hv : isYouTubeUrl s.url = true)
    (hf : outcomeFails out = true) :
    (handleConvert s rs out).1.error ≠ "" ∧
    (handleConvert s rs out).1.progress = 0 ∧
    (handleConvert s rs out).1.progressMessage = "" := by
  cases out with
  | networkReject msg =>
      simp [handleConvert, hv, applyResponse, catchBranch, errMsgOr_ne]
  | httpError status body =>
      simp [handleConvert, hv, applyResponse, catchBranch, errMsgOr_ne]
  | bodyError msg =>
      simp [handleConvert, hv, applyResponse, catchBranch, errMsgOr_ne]
  | success d => cases hf

/-- Witness for `c1_error_resets_progress` at a concrete failing job. -/
theorem c1_witness :
    (handleConvert demoValidState [] (FetchOutcome.httpError 500 "ise")).1.error
        ≠ "" ∧
    (handleConvert demoValidState [] (FetchOutcome.httpError 500 "ise")).1.progress
        = 0 ∧
    (handleConvert demoValidState [] (FetchOutcome.httpError 500 "ise")).1.progressMessage
        = "" :=
  c1_error_resets_progress demoValidState [] (FetchOutcome.httpError 500 "ise")
    (by decide) (by decide)

/-- C2 counterexample: two runs of the same job (same initial state, no
response yet) whose single interval tick draws `Math.random() = 0` versus
`Math.random() = 1/2` display different percentages (0 versus 7.5) at the
same point of the same stage, so the displayed percentage is not a
deterministic function of the job's stage and intra-stage fraction. -/
theorem c2_counterexample :
    tickTrace 0 [0] ≠ tickTrace 0 [1/2] ∧
    (0 : ℚ) ≤ 0 ∧ (0 : ℚ) < 1 ∧ (0 : ℚ) ≤ 1/2 ∧ (1/2 : ℚ) < 1 := by
  refine ⟨by norm_num [tickTrace, tick, min_def], by norm_num⟩

/-- C2 (amended): the progress percentage is fabricated by the client-side
interval timer from `Math.random()` draws, not derived from server-emitted
stage events: for every backend outcome there are two admissible draw
sequences under which the same job takes different progress-value
sequences. -/
theorem c2_progress_is_client_random (out : FetchOutcome) :
    ∃ r₁ r₂ : ℚ, 0 ≤ r₁ ∧ r₁ < 1 ∧ 0 ≤ r₂ ∧ r₂ < 1 ∧
      fullRunTrace [r₁] out ≠ fullRunTrace [r₂] out := by
  refine ⟨0, 1/2, by norm_num, by norm_num, by norm_num, by norm_num, ?_⟩
  cases out <;>
    norm_num [fullRunTrace, postResponseTrace, tickTrace, tick, min_def]

/-- C3: the sequence of progress percentages observed from submission until
the terminal result is recorded is non-decreasing.  On failure the terminal
error is recorded (`setError`) before the reset of progress to 0, and on
success `setProgress(100)` precedes the recording of the result, so the
observed-until-terminal trace is `tickTrace` followed by `[95]` (arrived
response that fails), `[95, 100]` (success), or nothing (rejected fetch);
every interval draw of `Math.random()` is non-negative. -/
theorem c3_progress_monotone_until_terminal (rs : List ℚ)
    (out : FetchOutcome) (h : ∀ r ∈ rs, 0 ≤ r) :
    List.Chain' (· ≤ ·) (traceUntilTerminal rs out) := by
  have h0 : (0 : ℚ) ≤ 90 := by norm_num
  have h95 : ∀ y ∈ ([95, 100] : List ℚ).head?, (90 : ℚ) ≤ y := by
    intro y hy
    simp only [List.head?_cons, Option.mem_def, Option.some.injEq] at hy
    subst hy; norm_num
  have h95b : ∀ y ∈ ([95] : List ℚ).head?, (90 : ℚ) ≤ y := by
    intro y hy
    simp only [List.head?_cons, Option.mem_def, Option.some.injEq] at hy
    subst hy; norm_num
  cases out with
  | networkReject msg =>
      exact chain_tickTrace_append rs 0 h0 h [] List.chain'_nil (by simp)
  | httpError status body =>
      exact chain_tickTrace_append rs 0 h0 h [95]
        (List.chain'_singleton 95) h95b
  | bodyError msg =>
      exact chain_tickTrace_append rs 0 h0 h [95]
        (List.chain'_singleton 95) h95b
  | success d =>
      exact chain_tickTrace_append rs 0 h0 h [95, 100]
        (List.chain'_pair.mpr (by norm_num)) h95

/-- Witness for `c3_progress_monotone_until_terminal` on a concrete run. -/
theorem c3_witness :
    List.Chain' (· ≤ ·)
      (traceUntilTerminal [1/2, 1/4] (FetchOutcome.success demoData)) :=
  c3_progress_monotone_until_terminal [1/2, 1/4]
    (FetchOutcome.success demoData) (by norm_num)

/-- C10: in-flight progress values produced by the interval never exceed 90
(so 95 never appears among them — it is written only once a response has
arrived), and 100 appears in a run's progress values only when the outcome
is a successful response. -/
theorem c10_progress_caps (rs : List ℚ) (out : FetchOutcome) :
    (∀ p ∈ tickTrace 0 rs, p ≤ 90) ∧
    (95 : ℚ) ∉ tickTrace 0 rs ∧
    ((100 : ℚ) ∈ fullRunTrace rs out → ∃ d, out = FetchOutcome.success d) := by
  refine ⟨tickTrace_mem_le rs 0 (by norm_num), ?_, ?_⟩
  · intro hmem
    have h95 := tickTrace_mem_le rs 0 (by norm_num) 95 hmem
    norm_num at h95
  · intro hmem
    unfold fullRunTrace at hmem
    rcases List.mem_append.mp hmem with hm | hm
    · have h100 := tickTrace_mem_le rs 0 (by norm_num) 100 hm
      norm_num at h100
    · cases out with
      | success d => exact ⟨d, rfl⟩
      | networkReject msg =>
          simp only [postResponseTrace, List.mem_singleton] at hm
          norm_num at hm
      | httpError status body =>
          simp only [postResponseTrace, List.mem_cons,
            List.mem_singleton, List.not_mem_nil, or_false] at hm
          norm_num at hm
      | bodyError msg =>
          simp only [postResponseTrace, List.mem_cons,
            List.mem_singleton, List.not_mem_nil, or_false] at hm
          norm_num at hm

/-- Witness for `c10_progress_caps` at a concrete run: the tick value 15/2
stays below 90, and the occurrence of 100 in a successful run's trace is
certified by a success payload. -/
theorem c10_witness :
    ((15 / 2 : ℚ) ≤ 90) ∧
    (∃ d, FetchOutcome.success demoData = FetchOutcome.success d) :=
  ⟨(c10_progress_caps [1/2] (FetchOutcome.success demoData)).1 (15/2)
      (by norm_num [tickTrace, tick, min_def]),
   (c10_progress_caps [1/2] (FetchOutcome.success demoData)).2.2
      (by norm_num [fullRunTrace, postResponseTrace, tickTrace, tick,
        min_def])⟩

/-- A state holding a URL that fails the frontend validation. -/
def demoInvalidState : AppState := { initialState with url := "not-a-url" }

/-- A second state holding a URL that fails the frontend validation. -/
def demoFtpState : AppState :=
  { initialState with url := "ftp://example.org/v" }

/-- C4: for every state whose input string does not match either accepted
host pattern, validation fails, no request is issued, and the job never
starts processing (the loading and sidebar flags are untouched); the modelled
URL Validator likewise fails with `InvalidURL` on the string `not-a-url`
(spec §8 Scenario B). -/
theorem c4_invalid_url_rejected (s : AppState) (rs : List ℚ)
    (out : FetchOutcome) (h : isYouTubeUrl s.url = false) :
    validateUrl "not-a-url" = Except.error UrlError.invalidURL ∧
    (handleConvert s rs out).2 = none ∧
    (handleConvert s rs out).1.error = "Please enter a valid YouTube URL" ∧
    (handleConvert s rs out).1.isLoading = s.isLoading ∧
    (handleConvert s rs out).1.isSidebarOpen = s.isSidebarOpen := by
  refine ⟨by decide, ?_, ?_, ?_, ?_⟩ <;> simp [handleConvert, h]

/-- Witness for `c4_invalid_url_rejected` at the input `not-a-url`. -/
theorem c4_witness :
    (handleConvert demoInvalidState []
        (FetchOutcome.bodyError "x")).2 = none ∧
    (handleConvert demoInvalidState [] (FetchOutcome.bodyError "x")).1.error
      = "Please enter a valid YouTube URL" :=
  ⟨(c4_invalid_url_rejected demoInvalidState []
      (FetchOutcome.bodyError "x") (by decide)).2.1,
   (c4_invalid_url_rejected demoInvalidState []
      (FetchOutcome.bodyError "x") (by decide)).2.2.1⟩

/-- C5: the modelled URL Validator returns the identifier `abc123` on the
input `https://youtu.be/abc123` (spec §8 Scenario A), and every successful
validation returns a non-empty canonical identifier. -/
theorem c5_validator_extracts_id :
    validateUrl "https://youtu.be/abc123" = Except.ok "abc123" ∧
    ∀ s id, validateUrl s = Except.ok id → id ≠ "" := by
  refine ⟨by decide, ?_⟩
  intro s id h hemp
  have hc := validateUrl_ok_canonical s id h
  subst hemp
  exact absurd hc (by decide)

/-- Witness for `c5_validator_extracts_id` on a `youtube.com` URL. -/
theorem c5_witness :
    validateUrl "https://www.youtube.com/watch?v=xyz9" = Except.ok "xyz9" ∧
    "xyz9" ≠ "" :=
  ⟨by decide,
   c5_validator_extracts_id.2 "https://www.youtube.com/watch?v=xyz9" "xyz9"
    (by decide)⟩

/-- C6: URL validation is idempotent — whatever identifier a successful
validation returns, validating that identifier succeeds and returns it
unchanged. -/
theorem c6_validate_idempotent (s id : String)
    (h : validateUrl s = Except.ok id) : validateUrl id = Except.ok id := by
  have hc := validateUrl_ok_canonical s id h
  simp [validateUrl, hc]

/-- Witness for `c6_validate_idempotent`: re-validating the identifier
extracted from `https://youtu.be/abc123` returns it unchanged. -/
theorem c6_witness : validateUrl "abc123" = Except.ok "abc123" :=
  c6_validate_idempotent "https://youtu.be/abc123" "abc123" (by decide)

/-- C7 counterexample: the request body built by the code contains the field
`include_chapters`, so its field list is not the claimed four-element set
{url, summary_type, include_timestamps, include_highlights}. -/
theorem c7_counterexample :
    ("include_chapters", JsonVal.bool false)
        ∈ mkRequestBody "https://youtu.be/abc123" SummaryType.comprehensive ∧
    (mkRequestBody "https://youtu.be/abc123"
        SummaryType.comprehensive).map Prod.fst
      ≠ ["url", "summary_type", "include_timestamps",
         "include_highlights"] := by
  refine ⟨by decide, by decide⟩

/-- C7 (amended): every request consists of exactly the five fields
{url: string, summary_type, include_timestamps: true,
include_chapters: false, include_highlights: true}, with `summary_type`
restricted to the four values comprehensive, brief, bullets, academic. -/
theorem c7_request_fields (u : String) (st : SummaryType) :
    (mkRequestBody u st).map Prod.fst =
      ["url", "summary_type", "include_timestamps", "include_chapters",
       "include_highlights"] ∧
    ("url", JsonVal.str u) ∈ mkRequestBody u st ∧
    ("summary_type", JsonVal.str (summaryTypeStr st)) ∈ mkRequestBody u st ∧
    ("include_timestamps", JsonVal.bool true) ∈ mkRequestBody u st ∧
    ("include_chapters", JsonVal.bool false) ∈ mkRequestBody u st ∧
    ("include_highlights", JsonVal.bool true) ∈ mkRequestBody u st ∧
    summaryTypeStr st ∈ ["comprehensive", "brief", "bullets", "academic"] := by
  refine ⟨by simp [mkRequestBody], by simp [mkRequestBody],
    by simp [mkRequestBody], by simp [mkRequestBody], by simp [mkRequestBody],
    by simp [mkRequestBody], ?_⟩
  cases st <;> simp [summaryTypeStr]

/-- C8: on terminal success the displayed summary equals the payload's
`text` field, the displayed video information equals the payload's
`video_info`, and no error is shown. -/
theorem c8_success_payload_displayed (s : AppState) (rs : List ℚ)
    (d : ResponseData) (h : isYouTubeUrl s.url = true) :
    displayedSummary (handleConvert s rs (FetchOutcome.success d)).1
      = d.text ∧
    displayedVideoInfo (handleConvert s rs (FetchOutcome.success d)).1
      = some d.video_info ∧
    (handleConvert s rs (FetchOutcome.success d)).1.error = "" := by
  refine ⟨?_, ?_, ?_⟩ <;>
    simp [handleConvert, h, applyResponse, displayedSummary,
      displayedVideoInfo]

/-- Witness for `c8_success_payload_displayed` on a concrete success run. -/
theorem c8_witness :
    displayedSummary
        (handleConvert demoValidState [] (FetchOutcome.success demoData)).1
      = demoData.text ∧
    displayedVideoInfo
        (handleConvert demoValidState [] (FetchOutcome.success demoData)).1
      = some demoData.video_info ∧
    (handleConvert demoValidState []
        (FetchOutcome.success demoData)).1.error = "" :=
  c8_success_payload_displayed demoValidState [] demoData (by decide)

/-- C9: when the input URL fails validation, `handleConvert` sets only the
error message and returns — the loading flag, sidebar visibility,
transcript, progress, progress message, video info, copy flag and URL are
all unchanged, and no network request is made. -/
theorem c9_invalid_url_frame (s : AppState) (rs : List ℚ)
    (out : FetchOutcome) (h : isYouTubeUrl s.url = false) :
    (handleConvert s rs out).2 = none ∧
    (handleConvert s rs out).1.error = "Please enter a valid YouTube URL" ∧
    (handleConvert s rs out).1.isLoading = s.isLoading ∧
    (handleConvert s rs out).1.isSidebarOpen = s.isSidebarOpen ∧
    (handleConvert s rs out).1.transcript = s.transcript ∧
    (handleConvert s rs out).1.progress = s.progress ∧
    (handleConvert s rs out).1.progressMessage = s.progressMessage ∧
    (handleConvert s rs out).1.videoInfo = s.videoInfo ∧
    (handleConvert s rs out).1.copySuccess = s.copySuccess ∧
    (handleConvert s rs out).1.url = s.url := by
  simp [handleConvert, h]

/-- Witness for `c9_invalid_url_frame` at a non-YouTube URL. -/
theorem c9_witness :
    (handleConvert demoFtpState [] (FetchOutcome.bodyError "x")).2 = none ∧
    (handleConvert demoFtpState [] (FetchOutcome.bodyError "x")).1.progress
      = demoFtpState.progress :=
  ⟨(c9_invalid_url_frame demoFtpState []
      (FetchOutcome.bodyError "x") (by decide)).1,
   (c9_invalid_url_frame demoFtpState []
      (FetchOutcome.bodyError "x") (by decide)).2.2.2.2.2.1⟩

end Scriptify

